import Mathlib

/-!
Verification development for the NoCEG system: a shallow embedding of the
analyzer (noceg_signatures), the in-process extractor (noceg) and the
patcher (noceg_patcher), with theorems settling the specified properties.

Machine integers (uint32) are modelled as Nat with explicit reduction
modulo 2^32 where the source performs 32-bit arithmetic.
-/

/-- Modulus of 32-bit machine arithmetic. -/
def u32size : Nat := 4294967296

/-- Truncation to 32 bits. -/
def u32 (n : Nat) : Nat := n % u32size

/-- Wrapping 32-bit addition, as performed on uint32 values in the source. -/
def uadd (a b : Nat) : Nat := (a + b) % u32size

/-- Wrapping 32-bit subtraction, as performed on uint32 values in the source. -/
def usub (a b : Nat) : Nat := (a + u32size - b % u32size) % u32size

/-- Uppercase hexadecimal digit for a nibble, as produced by the
std format spec 08X used in JsonReader.UpdateEntry (reader.h). -/
def hexDigitUpper (n : Nat) : Char :=
  if n < 10 then Char.ofNat (48 + n) else Char.ofNat (55 + n)

/-- Lowercase hexadecimal digit for a nibble, as produced by the
std format spec 08x used in JsonWriter.WriteJSON (writer.h). -/
def hexDigitLower (n : Nat) : Char :=
  if n < 10 then Char.ofNat (48 + n) else Char.ofNat (87 + n)

/-- Format a 32-bit value as 0x followed by exactly eight hex digits,
most significant nibble first, using the given digit function. -/
def formatHex8With (digit : Nat → Char) (v : Nat) : String :=
  String.mk ['0', 'x',
    digit (v / 268435456 % 16), digit (v / 16777216 % 16),
    digit (v / 1048576 % 16), digit (v / 65536 % 16),
    digit (v / 4096 % 16), digit (v / 256 % 16),
    digit (v / 16 % 16), digit (v % 16)]

/-- The format string 0x followed by 08X applied to a uint32, as in
reader.h UpdateEntry. -/
def formatHex8Upper (v : Nat) : String := formatHex8With hexDigitUpper v

/-- The format string 0x followed by 08x applied to a uint32, as in
writer.h WriteJSON. -/
def formatHex8Lower (v : Nat) : String := formatHex8With hexDigitLower v

/-- One entry of the ConstantOrStolen array of the recipe JSON: the
object keyed by the function VA, with its Prologue, EIP, BP, Value and
Type fields (all hex strings except Type). -/
structure CSEntry where
  key : String
  prologue : String
  eip : String
  bp : String
  value : String
  ty : Int
deriving DecidableEq

/-- JsonReader.UpdateEntry (reader.h lines 119 to 130): if the index is in
range, set the Value field of the entry at that index to the captured EAX
formatted with 0x and 08X (uppercase). -/
def UpdateEntry (j : List CSEntry) (index : Nat) (eax : Nat) : List CSEntry :=
  if h : index < j.length then
    j.set index { j.get ⟨index, h⟩ with value := formatHex8Upper eax }
  else j

/-- An entry is unextracted while its Value field is the literal
string 0x00000000. -/
def isUnfilled (e : CSEntry) : Bool := e.value == "0x00000000"

/-- Number of entries whose Value field is still 0x00000000. -/
def unfilledCount (j : List CSEntry) : Nat := j.countP isUnfilled

theorem formatHex8Upper_zero : formatHex8Upper 0 = "0x00000000" := by
  decide

theorem hexDigitUpper_eq_zero : ∀ n < 16, hexDigitUpper n = '0' → n = 0 := by
  decide

theorem formatHex8Upper_eq_zero_iff (v : Nat) (hv : v < u32size) :
    formatHex8Upper v = "0x00000000" ↔ v = 0 := by
  constructor
  · intro h
    have hd := congrArg String.data h
    simp only [formatHex8Upper, formatHex8With, String.data] at hd
    have h0 : hexDigitUpper (v / 268435456 % 16) = '0' := by
      simpa using congrArg (fun l => l.get! 2) hd
    have h1 : hexDigitUpper (v / 16777216 % 16) = '0' := by
      simpa using congrArg (fun l => l.get! 3) hd
    have h2 : hexDigitUpper (v / 1048576 % 16) = '0' := by
      simpa using congrArg (fun l => l.get! 4) hd
    have h3 : hexDigitUpper (v / 65536 % 16) = '0' := by
      simpa using congrArg (fun l => l.get! 5) hd
    have h4 : hexDigitUpper (v / 4096 % 16) = '0' := by
      simpa using congrArg (fun l => l.get! 6) hd
    have h5 : hexDigitUpper (v / 256 % 16) = '0' := by
      simpa using congrArg (fun l => l.get! 7) hd
    have h6 : hexDigitUpper (v / 16 % 16) = '0' := by
      simpa using congrArg (fun l => l.get! 8) hd
    have h7 : hexDigitUpper (v % 16) = '0' := by
      simpa using congrArg (fun l => l.get! 9) hd
    have e0 := hexDigitUpper_eq_zero _ (Nat.mod_lt _ (by norm_num)) h0
    have e1 := hexDigitUpper_eq_zero _ (Nat.mod_lt _ (by norm_num)) h1
    have e2 := hexDigitUpper_eq_zero _ (Nat.mod_lt _ (by norm_num)) h2
    have e3 := hexDigitUpper_eq_zero _ (Nat.mod_lt _ (by norm_num)) h3
    have e4 := hexDigitUpper_eq_zero _ (Nat.mod_lt _ (by norm_num)) h4
    have e5 := hexDigitUpper_eq_zero _ (Nat.mod_lt _ (by norm_num)) h5
    have e6 := hexDigitUpper_eq_zero _ (Nat.mod_lt _ (by norm_num)) h6
    have e7 := hexDigitUpper_eq_zero _ (Nat.mod_lt _ (by norm_num)) h7
    have hv' : v < 4294967296 := hv
    omega
  · intro h
    subst h
    decide

/-- Sample recipe with a single unextracted ConstantOrStolen entry, used to
instantiate the universally quantified theorems. -/
def sampleRecipe : List CSEntry :=
  [{ key := "0x0040100b", prologue := "0x0040100b", eip := "0x00401000",
     bp := "0x00401033", value := "0x00000000", ty := 1 }]

/-- C4 (amended): when the entry at the current index is unextracted, a
breakpoint capture never increases the number of entries whose Value is
0x00000000; it decreases that number by exactly one when the captured EAX
is nonzero and leaves it unchanged when the captured EAX is zero (the
update rewrites the literal 0x00000000). -/
theorem updateEntry_unfilledCount (j : List CSEntry) (i : Nat) (eax : Nat)
    (h : i < j.length) (hu : isUnfilled (j.get ⟨i, h⟩) = true) (he : eax < u32size) :
    unfilledCount (UpdateEntry j i eax) =
      (if eax = 0 then unfilledCount j else unfilledCount j - 1) ∧
    unfilledCount (UpdateEntry j i eax) ≤ unfilledCount j := by
  have hget : j.get ⟨i, h⟩ = j[i] := List.get_eq_getElem j ⟨i, h⟩
  have hcount : 0 < j.countP isUnfilled := by
    rw [List.countP_pos_iff]
    exact ⟨j[i], List.getElem_mem h, by rw [← hget]; exact hu⟩
  have htt : (if (true : Bool) = true then 1 else 0) = 1 := rfl
  have hff : (if (false : Bool) = true then 1 else 0) = 0 := rfl
  unfold unfilledCount UpdateEntry
  rw [dif_pos h]
  rw [List.countP_set isUnfilled j i _ h]
  rw [← hget, hu, htt]
  by_cases hz : eax = 0
  · subst hz
    have hnew : isUnfilled { j.get ⟨i, h⟩ with value := formatHex8Upper 0 } = true := by
      simp [isUnfilled, formatHex8Upper_zero]
    rw [hnew, htt, if_pos rfl]
    constructor
    · omega
    · omega
  · have hne : formatHex8Upper eax ≠ "0x00000000" := by
      intro hcontra
      exact hz ((formatHex8Upper_eq_zero_iff eax he).mp hcontra)
    have hnew : isUnfilled { j.get ⟨i, h⟩ with value := formatHex8Upper eax } = false := by
      simp [isUnfilled, hne]
    rw [hnew, hff, if_neg hz]
    constructor
    · omega
    · omega

/-- Witness: the amended C4 theorem applied to a concrete one-entry recipe
with captured EAX value 3. -/
theorem updateEntry_unfilledCount_witness :
    (0 < sampleRecipe.length) ∧
    (unfilledCount (UpdateEntry sampleRecipe 0 3) =
      (if (3 : Nat) = 0 then unfilledCount sampleRecipe else unfilledCount sampleRecipe - 1) ∧
     unfilledCount (UpdateEntry sampleRecipe 0 3) ≤ unfilledCount sampleRecipe) :=
  ⟨by decide, updateEntry_unfilledCount sampleRecipe 0 3 (by decide) (by decide) (by decide)⟩

/-- C4 (counterexample): on a one-entry recipe whose entry is unextracted, a
breakpoint hit whose captured EAX equals zero leaves the number of
0x00000000 entries at 1 instead of decreasing it by exactly one to 0, so
the claim is false for the captured value zero. -/
theorem updateEntry_eax_zero_counterexample :
    unfilledCount (UpdateEntry sampleRecipe 0 0) ≠ unfilledCount sampleRecipe - 1 := by
  decide

/-- Character is an ASCII digit or a lowercase hex letter a to f. -/
def isLowerHexDigit (c : Char) : Bool :=
  (48 ≤ c.toNat && c.toNat ≤ 57) || (97 ≤ c.toNat && c.toNat ≤ 102)

/-- Character is an ASCII digit or an uppercase hex letter A to F. -/
def isUpperHexDigit (c : Char) : Bool :=
  (48 ≤ c.toNat && c.toNat ≤ 57) || (65 ≤ c.toNat && c.toNat ≤ 70)

/-- String has the shape 0x followed by exactly eight digits accepted by
the given digit predicate. -/
def isHex8With (digitOk : Char → Bool) (s : String) : Bool :=
  match s.data with
  | '0' :: 'x' :: rest => rest.length == 8 && rest.all digitOk
  | _ => false

/-- String is 0x followed by exactly eight lowercase hex digits. -/
def isHex8Lower (s : String) : Bool := isHex8With isLowerHexDigit s

/-- String is 0x followed by exactly eight uppercase hex digits. -/
def isHex8Upper (s : String) : Bool := isHex8With isUpperHexDigit s

theorem hexDigitLower_ok : ∀ n < 16, isLowerHexDigit (hexDigitLower n) = true := by
  decide

theorem hexDigitUpper_ok : ∀ n < 16, isUpperHexDigit (hexDigitUpper n) = true := by
  decide

theorem isHex8Lower_format (v : Nat) : isHex8Lower (formatHex8Lower v) = true := by
  have hmod : ∀ m : Nat, m % 16 < 16 := fun m => Nat.mod_lt _ (by norm_num)
  simp only [isHex8Lower, isHex8With, formatHex8Lower, formatHex8With, List.all_cons,
    List.all_nil, List.length_cons, List.length_nil]
  simp [hexDigitLower_ok _ (hmod _)]

theorem isHex8Upper_format (v : Nat) : isHex8Upper (formatHex8Upper v) = true := by
  have hmod : ∀ m : Nat, m % 16 < 16 := fun m => Nat.mod_lt _ (by norm_num)
  simp only [isHex8Upper, isHex8With, formatHex8Upper, formatHex8With, List.all_cons,
    List.all_nil, List.length_cons, List.length_nil]
  simp [hexDigitUpper_ok _ (hmod _)]

/-- The in-memory analyzer results serialized by JsonWriter.WriteJSON: the
four variant multimaps of func to the tuple (prologue, eip, bp), the three
anchor addresses, and the integrity and test secret address lists. -/
structure AnalyzerOutput where
  constantFuncs : List (Nat × (Nat × Nat × Nat))
  stolenV1 : List (Nat × (Nat × Nat × Nat))
  stolenV2 : List (Nat × (Nat × Nat × Nat))
  stolenV3 : List (Nat × (Nat × Nat × Nat))
  initFunc : Nat
  registerThreadFunc : Nat
  termFunc : Nat
  integrity : List Nat
  testSecret : List Nat

/-- Hex strings emitted for one ConstantOrStolen entry by the
add_protected_funcs lambda in writer.h: the func key, Prologue, EIP and BP
formatted with 08x, plus the default Value 0x00000000. -/
def tupleStrings (kv : Nat × (Nat × Nat × Nat)) : List String :=
  [formatHex8Lower kv.1, formatHex8Lower kv.2.1, formatHex8Lower kv.2.2.1,
   formatHex8Lower kv.2.2.2, "0x00000000"]

/-- Every hex string written by JsonWriter.WriteJSON (writer.h lines 74 to
131): protected entries of all four maps, the Init, RegisterThread and
Terminate anchors, and the Integrity and TestSecret arrays. -/
def writerHexStrings (d : AnalyzerOutput) : List String :=
  (d.constantFuncs.map tupleStrings).flatten ++
  (d.stolenV1.map tupleStrings).flatten ++
  (d.stolenV2.map tupleStrings).flatten ++
  (d.stolenV3.map tupleStrings).flatten ++
  [formatHex8Lower d.initFunc, formatHex8Lower d.registerThreadFunc,
   formatHex8Lower d.termFunc] ++
  d.integrity.map formatHex8Lower ++ d.testSecret.map formatHex8Lower

theorem tupleStrings_lower (kv : Nat × (Nat × Nat × Nat)) :
    ∀ s ∈ tupleStrings kv, isHex8Lower s = true := by
  intro s hs
  simp only [tupleStrings, List.mem_cons, List.not_mem_nil, or_false] at hs
  rcases hs with rfl | rfl | rfl | rfl | rfl
  · exact isHex8Lower_format _
  · exact isHex8Lower_format _
  · exact isHex8Lower_format _
  · exact isHex8Lower_format _
  · decide

theorem flatten_tupleStrings_lower (m : List (Nat × (Nat × Nat × Nat))) :
    ∀ s ∈ (m.map tupleStrings).flatten, isHex8Lower s = true := by
  intro s hs
  rw [List.mem_flatten] at hs
  obtain ⟨l, hl, hsl⟩ := hs
  rw [List.mem_map] at hl
  obtain ⟨kv, _, rfl⟩ := hl
  exact tupleStrings_lower kv s hsl

/-- C5 (amended): every hex string the recipe writer of the analyzer emits
is 0x followed by exactly eight lowercase hex digits, while the Value
string the extractor writes back after a captured breakpoint hit is 0x
followed by exactly eight uppercase hex digits (which coincides with the
lowercase format only when every nibble is below ten). -/
theorem forall_mem_append_str {P : String → Prop} {a b : List String}
    (ha : ∀ s ∈ a, P s) (hb : ∀ s ∈ b, P s) : ∀ s ∈ a ++ b, P s := by
  intro s hs
  rcases List.mem_append.mp hs with h | h
  · exact ha s h
  · exact hb s h

theorem writer_lower_reader_upper (d : AnalyzerOutput) :
    (∀ s ∈ writerHexStrings d, isHex8Lower s = true) ∧
    (∀ eax : Nat, isHex8Upper (formatHex8Upper eax) = true) := by
  constructor
  · have hanchors : ∀ s ∈ [formatHex8Lower d.initFunc,
        formatHex8Lower d.registerThreadFunc, formatHex8Lower d.termFunc],
        isHex8Lower s = true := by
      intro s hs
      simp only [List.mem_cons, List.not_mem_nil, or_false] at hs
      rcases hs with rfl | rfl | rfl <;> exact isHex8Lower_format _
    have hmap : ∀ l : List Nat, ∀ s ∈ l.map formatHex8Lower, isHex8Lower s = true := by
      intro l s hs
      rw [List.mem_map] at hs
      obtain ⟨a, _, rfl⟩ := hs
      exact isHex8Lower_format _
    unfold writerHexStrings
    exact forall_mem_append_str
      (forall_mem_append_str
        (forall_mem_append_str
          (forall_mem_append_str
            (forall_mem_append_str
              (forall_mem_append_str (flatten_tupleStrings_lower _)
                (flatten_tupleStrings_lower _))
              (flatten_tupleStrings_lower _))
            (flatten_tupleStrings_lower _))
          hanchors)
        (hmap _))
      (hmap _)
  · intro eax
    exact isHex8Upper_format eax

/-- Sample analyzer output used to instantiate the C5 theorem. -/
def sampleOutput : AnalyzerOutput :=
  { constantFuncs := [(4198411, (4198411, 4198400, 4198451))]
    stolenV1 := [], stolenV2 := [], stolenV3 := []
    initFunc := 4198000, registerThreadFunc := 4198100, termFunc := 4198200
    integrity := [4198300], testSecret := [] }

/-- Witness: the amended C5 theorem applied to a concrete analyzer output,
then evaluated on its first emitted string and on a concrete EAX. -/
theorem writer_lower_reader_upper_witness :
    isHex8Lower (formatHex8Lower 4198411) = true ∧
    isHex8Upper (formatHex8Upper 3735928559) = true :=
  ⟨(writer_lower_reader_upper sampleOutput).1 (formatHex8Lower 4198411)
      (by simp [writerHexStrings, sampleOutput, tupleStrings]),
   (writer_lower_reader_upper sampleOutput).2 3735928559⟩

/-- C5 (counterexample): after a breakpoint hit with captured EAX value
0xDEADBEEF, the extractor writes back the Value string 0xDEADBEEF, which
is not 0x followed by eight lowercase hex digits, so the claim that every
written hex string is lowercase fails on the Value path. -/
theorem reader_value_not_lower_counterexample :
    (UpdateEntry sampleRecipe 0 3735928559).map CSEntry.value = ["0xDEADBEEF"] ∧
    isHex8Lower "0xDEADBEEF" = false := by
  constructor
  · decide
  · decide

/-- CPU context record: the registers of the CONTEXT structure the
exception handler reads or writes, plus EBX standing for the rest of the
saved register state. -/
structure CPUContext where
  eip : Nat
  eax : Nat
  ebx : Nat
  eflags : Nat
deriving DecidableEq

/-- Software breakpoint manager state (memory.h lines 72 to 162). -/
structure BreakpointManager where
  m_Address : Nat
  m_BackupByte : Nat
  m_IsSet : Bool
deriving DecidableEq

/-- Initial breakpoint manager state: address 0, no backup, not set. -/
def BreakpointManager.init : BreakpointManager := ⟨0, 0, false⟩

/-- BreakpointManager.SetBreakpoint (memory.h lines 94 to 112): when no
breakpoint is set, back up the byte at the address and write 0xCC. The
VirtualProtect page protection change is assumed to succeed here; on
failure the source returns with no state change, exactly like the
already-set case. -/
def SetBreakpoint (mem : Nat → Nat) (b : BreakpointManager) (address : Nat) :
    (Nat → Nat) × BreakpointManager :=
  if b.m_IsSet then (mem, b)
  else (fun a => if a = address then 0xCC else mem a,
        { m_Address := address, m_BackupByte := mem address, m_IsSet := true })

/-- BreakpointManager.RemoveBreakpoint (memory.h lines 116 to 129):
restore the backed-up byte and clear m_IsSet. The address and backup byte
members are left untouched, as in the source. -/
def RemoveBreakpoint (mem : Nat → Nat) (b : BreakpointManager) :
    (Nat → Nat) × BreakpointManager :=
  if b.m_IsSet then
    (fun a => if a = b.m_Address then b.m_BackupByte else mem a,
     { b with m_IsSet := false })
  else (mem, b)

/-- BreakpointManager.GetAddress (memory.h lines 137 to 140): returns the
m_Address member unconditionally. -/
def GetAddress (b : BreakpointManager) : Nat := b.m_Address

/-- Global application state held by ApplicationManager (app.h), plus the
ShouldRestart field read from the recipe JSON. -/
structure AppState where
  targetAddress : Nat
  eipAddress : Nat
  currentIndex : Nat
  registerThreadAddress : Nat
  shouldRestart : Bool
  savedContext : Option CPUContext
  bp : BreakpointManager
  recipe : List CSEntry
  shouldRestartJson : Bool
deriving DecidableEq

/-- Disposition returned by a vectored exception handler, with process
exit standing for the std exit call of the illegal instruction case. -/
inductive Disposition
  | continueExecution
  | continueSearch
  | processExit
deriving DecidableEq

/-- Result of one handler invocation: the new application state, process
memory, the context record with which execution resumes, and the
disposition. -/
structure HandlerResult where
  state : AppState
  mem : Nat → Nat
  ctx : CPUContext
  disp : Disposition

def EXCEPTION_SINGLE_STEP : Nat := 0x80000004
def EXCEPTION_BREAKPOINT : Nat := 0x80000003
def EXCEPTION_ILLEGAL_INSTRUCTION : Nat := 0xC000001D

/-- Custom exception code raised by EntryProcessorManager: the member
initializer at entry.h line 25 is 0xDEADDEAD. -/
def m_CustomExceptionCode : Nat := 0xDEADDEAD

/-- Exception code matched by the capture case of CEGExceptionHandler at
handler.h line 45. -/
def handlerCustomCaseCode : Nat := 0xCEADDEAD

/-- CEGExceptionHandler (handler.h lines 31 to 134) as a pure transition
on the application state, the process memory, and the exception context
record with which execution resumes. The source SetContext stores a
pointer to the CONTEXT structure; the model stores the value of the
record at the moment of the call. The result of config.SaveJSON is
supplied as the saveOk argument and the address of the RestartApp helper
as restartAppAddr. In the non-restart breakpoint branch the source line
assigning GetContext to ctx only rebinds a local pointer, so the record
with which execution resumes is returned unchanged there; the
ProcessEntry re-entry that follows never writes this invocation record. -/
def CEGExceptionHandler (restartAppAddr : Nat) (saveOk : Bool)
    (st : AppState) (mem : Nat → Nat) (code : Nat) (ctx : CPUContext) :
    HandlerResult :=
  if code = handlerCustomCaseCode then
    { state := { st with savedContext := some ctx }
      mem := mem
      ctx := { ctx with eip := st.eipAddress, eflags := ctx.eflags ||| 256 }
      disp := .continueExecution }
  else if code = EXCEPTION_SINGLE_STEP then
    if ctx.eip = st.targetAddress then
      { state := st, mem := mem
        ctx := { ctx with eflags := ctx.eflags &&& 4294967039 }
        disp := .continueExecution }
    else { state := st, mem := mem, ctx := ctx, disp := .continueExecution }
  else if code = EXCEPTION_BREAKPOINT then
    if ctx.eip = GetAddress st.bp then
      let mb := RemoveBreakpoint mem st.bp
      if st.currentIndex < st.recipe.length then
        let recipe1 := UpdateEntry st.recipe st.currentIndex ctx.eax
        if saveOk then
          if st.shouldRestartJson then
            { state := { st with bp := mb.2, recipe := recipe1, shouldRestart := true }
              mem := mb.1
              ctx := { ctx with eip := restartAppAddr }
              disp := .continueExecution }
          else
            let st2 : AppState :=
              { st with bp := mb.2, recipe := recipe1, currentIndex := st.currentIndex + 1 }
            { state := st2, mem := mb.1, ctx := ctx, disp := .continueExecution }
        else
          { state := { st with bp := mb.2, recipe := recipe1 }
            mem := mb.1, ctx := ctx, disp := .continueExecution }
      else
        { state := { st with bp := mb.2 }, mem := mb.1, ctx := ctx,
          disp := .continueExecution }
    else { state := st, mem := mem, ctx := ctx, disp := .continueSearch }
  else if code = EXCEPTION_ILLEGAL_INSTRUCTION then
    if st.shouldRestart then
      { state := st, mem := mem, ctx := ctx, disp := .processExit }
    else { state := st, mem := mem, ctx := ctx, disp := .continueSearch }
  else { state := st, mem := mem, ctx := ctx, disp := .continueSearch }

/-- Exception code raised by the switch of EntryProcessorManager
ProcessEntry (entry.h lines 141 to 166) for each recipe Type value: both
arms of the switch raise m_CustomExceptionCode; other type values raise
nothing. -/
def ProcessEntryRaiseCode (ty : Int) : Option Nat :=
  if ty = 2 then some m_CustomExceptionCode
  else if ty = 1 ∨ ty = 3 ∨ ty = 4 then some m_CustomExceptionCode
  else none

/-- Breakpoint exception context used to instantiate the handler. -/
def sampleCtx : CPUContext := { eip := 5242912, eax := 5, ebx := 1, eflags := 514 }

/-- Saved pre-jump context differing from the breakpoint context. -/
def sampleSavedCtx : CPUContext := { eip := 4198400, eax := 7, ebx := 9, eflags := 514 }

/-- Process memory filled with nop bytes. -/
def sampleMem : Nat → Nat := fun _ => 144

/-- Application state at the moment of a breakpoint hit: breakpoint armed
at 0x00500020, saved context present, first entry current. -/
def sampleState : AppState :=
  { targetAddress := 4198400
    eipAddress := 5242880
    currentIndex := 0
    registerThreadAddress := 0
    shouldRestart := false
    savedContext := some sampleSavedCtx
    bp := { m_Address := 5242912, m_BackupByte := 144, m_IsSet := true }
    recipe := sampleRecipe
    shouldRestartJson := false }

/-- C1 (code evaluation): for every variant 1..4 the raise site passes
m_CustomExceptionCode = 0xDEADDEAD, which differs from the 0xCEADDEAD
capture case of the installed handler, so the raised exception is not
handled by the save-context / redirect-EIP / set-trap-flag step: on the
raised code the handler returns EXCEPTION_CONTINUE_SEARCH, while it would
perform the capture step only on 0xCEADDEAD. -/
theorem raise_code_mismatch :
    ProcessEntryRaiseCode 1 = some 3735936685 ∧
    ProcessEntryRaiseCode 2 = some 3735936685 ∧
    ProcessEntryRaiseCode 3 = some 3735936685 ∧
    ProcessEntryRaiseCode 4 = some 3735936685 ∧
    m_CustomExceptionCode ≠ handlerCustomCaseCode ∧
    (CEGExceptionHandler 0 true sampleState sampleMem m_CustomExceptionCode
        sampleCtx).disp = Disposition.continueSearch ∧
    (CEGExceptionHandler 0 true sampleState sampleMem handlerCustomCaseCode
        sampleCtx).disp = Disposition.continueExecution := by
  refine ⟨rfl, rfl, rfl, rfl, by decide, rfl, rfl⟩

/-- C2 (code evaluation): on a breakpoint hit at the armed address with
ShouldRestart unset, the handler returns the breakpoint exception record
unchanged instead of the saved pre-jump context: the source assigns the
saved CONTEXT pointer to a local variable only and never copies it into
the record with which execution resumes; the current index is advanced
inside the handler regardless. -/
theorem breakpoint_restore_is_noop :
    (CEGExceptionHandler 0 true sampleState sampleMem EXCEPTION_BREAKPOINT
        sampleCtx).ctx = sampleCtx ∧
    (CEGExceptionHandler 0 true sampleState sampleMem EXCEPTION_BREAKPOINT
        sampleCtx).ctx ≠ sampleSavedCtx ∧
    sampleState.savedContext = some sampleSavedCtx ∧
    (CEGExceptionHandler 0 true sampleState sampleMem EXCEPTION_BREAKPOINT
        sampleCtx).state.currentIndex = sampleState.currentIndex + 1 ∧
    (CEGExceptionHandler 0 true sampleState sampleMem EXCEPTION_BREAKPOINT
        sampleCtx).disp = Disposition.continueExecution := by
  refine ⟨rfl, by decide, rfl, rfl, rfl⟩

/-- Breakpoint manager after arming address 0x1000 on nop-filled memory. -/
def armedBP : (Nat → Nat) × BreakpointManager :=
  SetBreakpoint sampleMem BreakpointManager.init 4096

/-- Breakpoint manager after the subsequent disarm. -/
def disarmedBP : (Nat → Nat) × BreakpointManager :=
  RemoveBreakpoint armedBP.1 armedBP.2

/-- C6 (code evaluation): while armed, GetAddress returns the armed
address; but RemoveBreakpoint clears only m_IsSet and leaves m_Address
stale, so after arm at 0x1000 followed by disarm, GetAddress returns
0x1000 rather than 0, contradicting its own documentation comment. The
original byte is restored correctly. -/
theorem getAddress_stale_after_disarm :
    GetAddress armedBP.2 = 4096 ∧
    armedBP.1 4096 = 204 ∧
    disarmedBP.2.m_IsSet = false ∧
    GetAddress disarmedBP.2 = 4096 ∧
    GetAddress disarmedBP.2 ≠ 0 ∧
    disarmedBP.1 4096 = 144 := by
  refine ⟨rfl, rfl, rfl, rfl, by decide, rfl⟩

/-- Result of one Zydis decode relevant to the prologue scan: whether the
decoded instruction is push ebp, whether it is mov ebp, esp, and its
byte length. Zydis is an external library, so the analyzer embedding is
parameterized over its decode results. -/
structure DecodedInsn where
  isPushEbp : Bool
  isMovEbpEsp : Bool
  length : Nat
deriving DecidableEq

/-- Classification variants of a protected function. -/
inductive Variant
  | constantV2
  | stolenV1
  | stolenV2
  | stolenV3
deriving DecidableEq

/-- One emplace performed on a variant multimap: the func key and the
tuple (prologue, eip, bp), all image VAs, tagged with the map. -/
structure CEGRecord where
  key : Nat
  prologue : Nat
  eip : Nat
  bp : Nat
  variant : Variant
deriving DecidableEq

/-- Environment of the instruction analyzer: process memory bytes, decode
results of the external Zydis decoder at data offsets, results of the
external mem pattern scanner (pattern, region start, region size, giving
the hit address or 0), the CEG_CODE_BASE constant and the legacy flag
CEG_OLD_VERSION. -/
structure AnalyzerEnv where
  mem : Nat → Nat
  decode : Nat → Option DecodedInsn
  scan : String → Nat → Nat → Nat
  codeBase : Nat
  oldVersion : Bool

/-- CalculateRealAddress (utils.h lines 523 to 529): the code base plus
the 32-bit difference between the current address and the region start. -/
def CalculateRealAddress (codeBase base cur : Nat) : Nat :=
  uadd codeBase (usub cur base)

/-- Data.CEG_SCAN_SIZE (utils.h line 117). -/
def CEG_SCAN_SIZE : Nat := 300

/-- Backward scan loop of FindFunctionPrologue (analyzer.h lines 218 to
260): from the call offset downward, look for a decoded push ebp whose
directly following decode is mov ebp, esp; on a hit return the real VA of
the push ebp byte. The loop runs while the offset exceeds the exclusive
stop offset, so it performs exactly offset minus stop iterations; the
steps argument carries that count to make the recursion structural. -/
def findPrologueLoop (env : AnalyzerEnv) (base : Nat) : Nat → Nat → Option Nat
  | _, 0 => none
  | offset, steps + 1 =>
    match env.decode offset with
    | some ins =>
      if ins.isPushEbp then
        match env.decode (offset + ins.length) with
        | some ins2 =>
          if ins2.isMovEbpEsp then
            some (CalculateRealAddress env.codeBase base (uadd base offset))
          else findPrologueLoop env base (offset - 1) steps
        | none => findPrologueLoop env base (offset - 1) steps
      else findPrologueLoop env base (offset - 1) steps
    | none => findPrologueLoop env base (offset - 1) steps

/-- FindFunctionPrologue (analyzer.h lines 207 to 264): scan backwards
from the call offset down to start_scan exclusive, over at most
CEG_SCAN_SIZE bytes; return the real VA of the located prologue, or
none. -/
def FindFunctionPrologue (env : AnalyzerEnv) (base call_offset : Nat) : Option Nat :=
  findPrologueLoop env base call_offset
    (call_offset - (if call_offset > CEG_SCAN_SIZE then call_offset - CEG_SCAN_SIZE else 0))

/-- GetCEGFunctionType (analyzer.h lines 277 to 334). The target_func
argument is the already converted real VA of the protected function (as
passed by ProcessProtectedFunction), and bp is the memory address of the
finalize CRC pattern hit plus its associated offset. The result is the
one record the call emplaces into a variant map, or none: the legacy
branch records nothing when the bytes after the call site are neither
call eax nor jmp eax. -/
def GetCEGFunctionType (env : AnalyzerEnv)
    (current_address bp base call_offset target_func : Nat) : Option CEGRecord :=
  if env.oldVersion then
    if env.mem (uadd current_address 5) = 255 ∧
        env.mem (uadd (uadd current_address 5) 1) = 208 then
      if env.mem (usub current_address 1) = 81 then
        some ⟨target_func, target_func,
          usub (CalculateRealAddress env.codeBase base current_address) 1,
          CalculateRealAddress env.codeBase base bp, Variant.stolenV1⟩
      else
        some ⟨target_func, target_func,
          CalculateRealAddress env.codeBase base current_address,
          CalculateRealAddress env.codeBase base bp, Variant.stolenV1⟩
    else if env.mem (uadd current_address 5) = 255 ∧
        env.mem (uadd (uadd current_address 5) 1) = 224 then
      some ⟨target_func, target_func,
        CalculateRealAddress env.codeBase base current_address,
        CalculateRealAddress env.codeBase base bp, Variant.stolenV2⟩
    else none
  else
    if env.mem (uadd current_address 5) = 195 ∨ env.mem (uadd current_address 5) = 137 then
      some ⟨target_func, target_func,
        CalculateRealAddress env.codeBase base current_address,
        CalculateRealAddress env.codeBase base bp, Variant.constantV2⟩
    else if env.mem (uadd current_address 5) = 255 ∧
        env.mem (uadd (uadd current_address 5) 1) = 224 then
      some ⟨target_func, target_func,
        CalculateRealAddress env.codeBase base current_address,
        CalculateRealAddress env.codeBase base bp, Variant.stolenV2⟩
    else if env.mem current_address = 235 then
      some ⟨target_func, target_func,
        CalculateRealAddress env.codeBase base current_address,
        CalculateRealAddress env.codeBase base bp, Variant.constantV2⟩
    else
      match FindFunctionPrologue env base call_offset with
      | some prologue =>
        some ⟨target_func, prologue,
          CalculateRealAddress env.codeBase base current_address,
          CalculateRealAddress env.codeBase base bp, Variant.stolenV3⟩
      | none =>
        some ⟨target_func, target_func,
          CalculateRealAddress env.codeBase base current_address,
          CalculateRealAddress env.codeBase base bp, Variant.stolenV3⟩

/-- The six wildcarded finalize CRC patterns (analyzer.h lines 28 to 36). -/
def FINALIZE_CRC_PATTERNS : List String :=
  ["E8 ?? ?? ?? ?? 8D ?? ?? ?? ?? ?? E8 ?? ?? ?? ?? 8B 0D ?? ?? ?? ?? 8B",
   "E8 ?? ?? ?? ?? 8D ?? ?? E8 ?? ?? ?? ?? 8B 0D ?? ?? ?? ?? 8B",
   "E8 ?? ?? ?? ?? 8D ?? ?? ?? E8 ?? ?? ?? ?? 8B 0D ?? ?? ?? ?? 8B",
   "E8 ?? ?? ?? ?? 8D ?? ?? E8 ?? ?? ?? ?? 5F",
   "E8 ?? ?? ?? ?? 8D ?? ?? ?? ?? ?? E8 ?? ?? ?? ?? 5F",
   "E8 ?? ?? ?? ?? 8D ?? ?? ?? E8 ?? ?? ?? ?? 5F"]

/-- The associated breakpoint offsets (analyzer.h line 40). -/
def FINALIZE_CRC_OFFSETS : List Nat := [16, 13, 14, 13, 16, 14]

/-- The zip loop of ProcessProtectedFunction (analyzer.h lines 166 to
181): the first pattern whose scan over the first CEG_SCAN_SIZE bytes of
the stub hits yields the breakpoint memory address hit plus offset; the
loop breaks on the first hit. -/
def findFirstFinalizeCrc (env : AnalyzerEnv) (target_func : Nat) : Option Nat :=
  (FINALIZE_CRC_PATTERNS.zip FINALIZE_CRC_OFFSETS).findSome? fun po =>
    let hit := env.scan po.1 target_func CEG_SCAN_SIZE
    if hit ≠ 0 then some (uadd hit po.2) else none

/-- ProcessProtectedFunction (analyzer.h lines 153 to 203): try the
finalize CRC patterns and on a hit classify through GetCEGFunctionType
with the converted func VA; otherwise, for the legacy protection with
call eax after the call site, record a StolenV1 entry directly (the
fallback path). The result is the one record the call emplaces, or
none. -/
def ProcessProtectedFunction (env : AnalyzerEnv)
    (current_address target_func base call_offset : Nat) : Option CEGRecord :=
  match findFirstFinalizeCrc env target_func with
  | some bp =>
    GetCEGFunctionType env current_address bp base call_offset
      (CalculateRealAddress env.codeBase base target_func)
  | none =>
    if env.oldVersion = true ∧ env.mem (uadd current_address 5) = 255 ∧
        env.mem (uadd (uadd current_address 5) 1) = 208 then
      if env.mem (usub current_address 1) = 81 then
        some ⟨CalculateRealAddress env.codeBase base target_func,
          CalculateRealAddress env.codeBase base target_func,
          CalculateRealAddress env.codeBase base (usub current_address 1),
          CalculateRealAddress env.codeBase base (uadd (uadd current_address 5) 2),
          Variant.stolenV1⟩
      else
        some ⟨CalculateRealAddress env.codeBase base target_func,
          CalculateRealAddress env.codeBase base target_func,
          uadd (CalculateRealAddress env.codeBase base (usub current_address 1)) 1,
          CalculateRealAddress env.codeBase base (uadd (uadd current_address 5) 2),
          Variant.stolenV1⟩
    else none

/-- Modelled from the claim wording for the modern classification (spec
section 4.3.1): byte C3 or 89 at next = call_site + 5 gives ConstantV2;
else bytes FF E0 at next give StolenV2; else byte EB at the call site
gives ConstantV2; otherwise StolenV3 whose prologue is the backward-scan
result within 300 bytes or the target itself; in every case eip is the
call site VA and bp the pattern hit plus associated offset as a VA. -/
def classifyModernClaim (env : AnalyzerEnv)
    (call_site bp base call_offset target_func : Nat) : CEGRecord :=
  if env.mem (uadd call_site 5) = 195 ∨ env.mem (uadd call_site 5) = 137 then
    ⟨target_func, target_func, CalculateRealAddress env.codeBase base call_site,
      CalculateRealAddress env.codeBase base bp, Variant.constantV2⟩
  else if env.mem (uadd call_site 5) = 255 ∧ env.mem (uadd (uadd call_site 5) 1) = 224 then
    ⟨target_func, target_func, CalculateRealAddress env.codeBase base call_site,
      CalculateRealAddress env.codeBase base bp, Variant.stolenV2⟩
  else if env.mem call_site = 235 then
    ⟨target_func, target_func, CalculateRealAddress env.codeBase base call_site,
      CalculateRealAddress env.codeBase base bp, Variant.constantV2⟩
  else
    match FindFunctionPrologue env base call_offset with
    | some prologue =>
      ⟨target_func, prologue, CalculateRealAddress env.codeBase base call_site,
        CalculateRealAddress env.codeBase base bp, Variant.stolenV3⟩
    | none =>
      ⟨target_func, target_func, CalculateRealAddress env.codeBase base call_site,
        CalculateRealAddress env.codeBase base bp, Variant.stolenV3⟩

/-- C3: for a modern (non-legacy) protection, a call site whose target is
a protected function and for which a finalize CRC pattern matched is
classified exactly as the claim states: GetCEGFunctionType always records
one entry, and that entry is the one given by the claim case split on the
bytes at the call site and at call_site + 5, with eip the call site VA
and bp the hit plus offset VA in every case, and the StolenV3 prologue
the backward-scan result or the target itself. -/
theorem getCEGFunctionType_modern (env : AnalyzerEnv)
    (cur bp base call_offset func : Nat) (h : env.oldVersion = false) :
    GetCEGFunctionType env cur bp base call_offset func =
      some (classifyModernClaim env cur bp base call_offset func) := by
  unfold GetCEGFunctionType classifyModernClaim
  rw [if_neg (by simp [h])]
  split_ifs <;> try rfl
  cases FindFunctionPrologue env base call_offset <;> rfl

/-- Modern analyzer environment for witnesses: a ret byte right after the
sample call site, decode always failing, scanner hitting at a fixed stub
offset. -/
def modernEnv : AnalyzerEnv :=
  { mem := fun a => if a = 268439557 then 195 else 144
    decode := fun _ => none
    scan := fun _ start _ => if start = 268439563 then 268439603 else 0
    codeBase := 4198400
    oldVersion := false }

/-- Witness: the C3 theorem applied to a concrete modern environment and
call site. -/
theorem getCEGFunctionType_modern_witness :
    modernEnv.oldVersion = false ∧
    GetCEGFunctionType modernEnv 268439552 268439619 268435456 4096 4198411 =
      some (classifyModernClaim modernEnv 268439552 268439619 268435456 4096 4198411) :=
  ⟨rfl, getCEGFunctionType_modern modernEnv 268439552 268439619 268435456 4096 4198411 rfl⟩

theorem uadd_usub_pred (a b c : Nat) :
    uadd a (usub (usub c 1) b) = usub (uadd a (usub c b)) 1 := by
  unfold uadd usub u32size
  omega

theorem uadd_usub_pred_succ (a b c : Nat) :
    uadd (uadd a (usub (usub c 1) b)) 1 = uadd a (usub c b) := by
  unfold uadd usub u32size
  omega

/-- The eip value the claim prescribes for a legacy StolenV1 entry: the
call site minus one when the byte before the call site is push ecx (51),
else the call site itself, converted to an image VA. -/
def legacyStolenV1Eip (env : AnalyzerEnv) (base call_site : Nat) : Nat :=
  if env.mem (usub call_site 1) = 81 then
    usub (CalculateRealAddress env.codeBase base call_site) 1
  else CalculateRealAddress env.codeBase base call_site

theorem getCEGFunctionType_legacy_eip (env : AnalyzerEnv)
    (cur base call_offset : Nat)
    (hold : env.oldVersion = true)
    (hff : env.mem (uadd cur 5) = 255)
    (hd0 : env.mem (uadd (uadd cur 5) 1) = 208) :
    ∀ bp func r, GetCEGFunctionType env cur bp base call_offset func = some r →
      r.eip = legacyStolenV1Eip env base cur ∧ r.variant = Variant.stolenV1 := by
  intro bp func r hr
  unfold GetCEGFunctionType at hr
  rw [if_pos hold] at hr
  rw [if_pos ⟨hff, hd0⟩] at hr
  unfold legacyStolenV1Eip
  by_cases hpq : env.mem (usub cur 1) = 81
  · rw [if_pos hpq] at hr
    rw [if_pos hpq]
    cases hr
    exact ⟨rfl, rfl⟩
  · rw [if_neg hpq] at hr
    rw [if_neg hpq]
    cases hr
    exact ⟨rfl, rfl⟩

/-- C7: for a legacy StolenV1 call site (bytes FF D0 after the call),
both recording paths (the finalize-CRC-matched path through
GetCEGFunctionType and the no-pattern fallback inside
ProcessProtectedFunction) store the same eip: the call site VA minus one
when the byte before the call site is push ecx, else the call site VA. -/
theorem stolenV1_eip_paths_agree (env : AnalyzerEnv)
    (cur target base call_offset bpA : Nat)
    (hold : env.oldVersion = true)
    (hff : env.mem (uadd cur 5) = 255)
    (hd0 : env.mem (uadd (uadd cur 5) 1) = 208) :
    (∀ r, GetCEGFunctionType env cur bpA base call_offset
        (CalculateRealAddress env.codeBase base target) = some r →
      r.eip = legacyStolenV1Eip env base cur ∧ r.variant = Variant.stolenV1) ∧
    (∀ r, ProcessProtectedFunction env cur target base call_offset = some r →
      r.eip = legacyStolenV1Eip env base cur ∧ r.variant = Variant.stolenV1) := by
  constructor
  · exact getCEGFunctionType_legacy_eip env cur base call_offset hold hff hd0 bpA _
  · intro r hr
    unfold ProcessProtectedFunction at hr
    rcases hcrc : findFirstFinalizeCrc env target with _ | bp
    · rw [hcrc] at hr
      simp only at hr
      rw [if_pos ⟨hold, hff, hd0⟩] at hr
      unfold legacyStolenV1Eip
      by_cases hpq : env.mem (usub cur 1) = 81
      · rw [if_pos hpq] at hr
        rw [if_pos hpq]
        cases hr
        refine ⟨?_, rfl⟩
        exact uadd_usub_pred env.codeBase base cur
      · rw [if_neg hpq] at hr
        rw [if_neg hpq]
        cases hr
        refine ⟨?_, rfl⟩
        exact uadd_usub_pred_succ env.codeBase base cur
    · rw [hcrc] at hr
      simp only at hr
      exact getCEGFunctionType_legacy_eip env cur base call_offset hold hff hd0 bp _ r hr

/-- Legacy analyzer environment for witnesses: bytes FF D0 after the
sample call site, push ecx right before it, scanner never hitting. -/
def legacyEnv : AnalyzerEnv :=
  { mem := fun a =>
      if a = 268439813 then 255
      else if a = 268439814 then 208
      else if a = 268439807 then 81
      else 144
    decode := fun _ => none
    scan := fun _ _ _ => 0
    codeBase := 4198400
    oldVersion := true }

/-- Witness: the C7 theorem applied to a concrete legacy environment and
call site, together with an evaluation showing the fallback path does
record a StolenV1 entry there. -/
theorem stolenV1_eip_paths_agree_witness :
    legacyEnv.oldVersion = true ∧
    legacyEnv.mem (uadd 268439808 5) = 255 ∧
    legacyEnv.mem (uadd (uadd 268439808 5) 1) = 208 ∧
    (ProcessProtectedFunction legacyEnv 268439808 268439818 268435456 1280).isSome = true ∧
    ((∀ r, GetCEGFunctionType legacyEnv 268439808 268439850 268435456 1280
        (CalculateRealAddress legacyEnv.codeBase 268435456 268439818) = some r →
      r.eip = legacyStolenV1Eip legacyEnv 268435456 268439808 ∧
      r.variant = Variant.stolenV1) ∧
     (∀ r, ProcessProtectedFunction legacyEnv 268439808 268439818 268435456 1280 = some r →
      r.eip = legacyStolenV1Eip legacyEnv 268435456 268439808 ∧
      r.variant = Variant.stolenV1)) :=
  ⟨rfl, by decide, by decide, by decide,
   stolenV1_eip_paths_agree legacyEnv 268439808 268439818 268435456 1280 268439850
     rfl (by decide) (by decide)⟩

/-- The remove_ref lambda of noceg_signatures main.cpp (lines 149 to 158):
for every key of the reference container, erase the equal range of that
key from the StolenV2 multimap. The net effect of the loop is to keep
exactly the StolenV2 entries whose key occurs in no reference entry. -/
def remove_ref (container v2 : List (Nat × (Nat × Nat × Nat))) :
    List (Nat × (Nat × Nat × Nat)) :=
  v2.filter fun kv => !(container.any fun c => c.1 == kv.1)

/-- The de-duplication step of main.cpp (lines 160 to 167): for the legacy
protection erase the StolenV1 keys from StolenV2; otherwise erase the
ConstantV2 keys and then the StolenV3 keys from StolenV2. Only the
StolenV2 map is ever modified. -/
def dedupStolenV2 (old : Bool) (v1 konst v3 v2 : List (Nat × (Nat × Nat × Nat))) :
    List (Nat × (Nat × Nat × Nat)) :=
  if old then remove_ref v1 v2
  else remove_ref v3 (remove_ref konst v2)

theorem mem_remove_ref (container v2 : List (Nat × (Nat × Nat × Nat)))
    (kv : Nat × (Nat × Nat × Nat)) :
    kv ∈ remove_ref container v2 ↔ kv ∈ v2 ∧ ∀ c ∈ container, c.1 ≠ kv.1 := by
  unfold remove_ref
  rw [List.mem_filter]
  simp [List.any_eq_true]

/-- C8 (amended): after the de-duplication pass, no func key of StolenV2
also occurs in the maps used as reference (StolenV1 for the legacy
protection; ConstantV2 and StolenV3 for the modern one). The reference
maps themselves are never modified, so a func recorded under both
ConstantV2 and StolenV3 (possible when two call sites with different
surrounding bytes target the same protected function) stays in two maps,
and a target whose call site matches no classification rule is recorded
in no map. -/
theorem dedup_disjoint (v1 konst v3 v2 : List (Nat × (Nat × Nat × Nat))) :
    (∀ kv ∈ dedupStolenV2 true v1 konst v3 v2, ∀ c ∈ v1, c.1 ≠ kv.1) ∧
    (∀ kv ∈ dedupStolenV2 false v1 konst v3 v2,
      (∀ c ∈ konst, c.1 ≠ kv.1) ∧ (∀ c ∈ v3, c.1 ≠ kv.1)) := by
  constructor
  · intro kv hkv
    unfold dedupStolenV2 at hkv
    rw [if_pos rfl] at hkv
    exact ((mem_remove_ref v1 v2 kv).mp hkv).2
  · intro kv hkv
    unfold dedupStolenV2 at hkv
    rw [if_neg (by simp)] at hkv
    have h3 := (mem_remove_ref v3 (remove_ref konst v2) kv).mp hkv
    have hk := (mem_remove_ref konst v2 kv).mp h3.1
    exact ⟨hk.2, h3.2⟩

/-- Witness: the amended C8 theorem applied to concrete maps, plus an
evaluation of the de-duplication on them. -/
theorem dedup_disjoint_witness :
    dedupStolenV2 false [] [(7, (7, 1, 2))] [(9, (9, 3, 4))]
      [(7, (7, 5, 6)), (8, (8, 5, 6)), (9, (9, 5, 6))] = [(8, (8, 5, 6))] ∧
    ((∀ kv ∈ dedupStolenV2 true [] [(7, (7, 1, 2))] [(9, (9, 3, 4))]
        [(7, (7, 5, 6)), (8, (8, 5, 6)), (9, (9, 5, 6))], ∀ c ∈ ([] : List (Nat × (Nat × Nat × Nat))), c.1 ≠ kv.1) ∧
     (∀ kv ∈ dedupStolenV2 false [] [(7, (7, 1, 2))] [(9, (9, 3, 4))]
        [(7, (7, 5, 6)), (8, (8, 5, 6)), (9, (9, 5, 6))],
       (∀ c ∈ [(7, (7, 1, 2))], c.1 ≠ kv.1) ∧ (∀ c ∈ [(9, (9, 3, 4))], c.1 ≠ kv.1))) :=
  ⟨by decide,
   dedup_disjoint [] [(7, (7, 1, 2))] [(9, (9, 3, 4))]
     [(7, (7, 5, 6)), (8, (8, 5, 6)), (9, (9, 5, 6))]⟩

/-- C8 (counterexample): in a modern run, two call sites targeting the
same protected function can classify it into two different variant maps:
at the first site the byte after the call is ret, giving ConstantV2; at
the second the following bytes match no special case and no prologue is
found, giving StolenV3. Both records carry the same func key 0x00401d0b,
and the de-duplication step only erases from StolenV2, so the key stays
in two maps, contradicting the claim that no func address appears in two
different variant maps. -/
theorem classification_two_maps_counterexample :
    ProcessProtectedFunction modernEnv 268439552 268439563 268435456 4096 =
      some ⟨4202507, 4202507, 4202496, 4202563, Variant.constantV2⟩ ∧
    ProcessProtectedFunction modernEnv 268439700 268439563 268435456 4244 =
      some ⟨4202507, 4202507, 4202644, 4202563, Variant.stolenV3⟩ ∧
    Variant.constantV2 ≠ Variant.stolenV3 ∧
    dedupStolenV2 false [] [(4202507, (4202507, 4202496, 4202563))]
      [(4202507, (4202507, 4202644, 4202563))] [] = [] := by
  refine ⟨by decide, by decide, by decide, by decide⟩

/-- Byte of the file content at the given offset; reads outside the
buffer give 0 (the source performs unchecked pointer reads there; every
input used by a theorem keeps all reads inside the buffer). -/
def rd8 (c : List Nat) (i : Nat) : Nat := c.getD i 0

/-- Little endian 16-bit read at the given file offset. -/
def rd16 (c : List Nat) (i : Nat) : Nat := rd8 c i + 256 * rd8 c (i + 1)

/-- Little endian 32-bit read at the given file offset. -/
def rd32 (c : List Nat) (i : Nat) : Nat :=
  rd8 c i + 256 * rd8 c (i + 1) + 65536 * rd8 c (i + 2) + 16777216 * rd8 c (i + 3)

/-- Error kinds of the signatures utilities (utils.h lines 33 to 50),
restricted to those LoadBinaryImage can produce. -/
inductive PEError
  | emptyContent
  | nullBaseAddress
  | invalidDOSHeader
  | invalidPEHeader
  | nullImageBase
  | emptyNtHeader
  | nullRawPointer
  | nullVirtualSize
deriving DecidableEq

/-- The mutable analyzer globals written by LoadBinaryImage (the Data
namespace of utils.h). -/
structure PEGlobals where
  codeBase : Nat
  imagebaseRaw : Nat
  imagebaseMemory : Nat
  virtualAddress : Nat
  rawDataPointer : Nat
  aslrEnabled : Bool
deriving DecidableEq

/-- All-zero initial globals. -/
def PEGlobals.init : PEGlobals :=
  { codeBase := 0, imagebaseRaw := 0, imagebaseMemory := 0,
    virtualAddress := 0, rawDataPointer := 0, aslrEnabled := false }

/-- Outcome of LoadBinaryImage: the error (none on success), the globals
after the call, and the address and size out parameters after the call. -/
structure LoadResult where
  res : Option PEError
  globals : PEGlobals
  address : Nat
  size : Nat
deriving DecidableEq

/-- LoadBinaryImage (utils.h lines 249 to 309) over a byte buffer located
at address memBase: validate the DOS and NT headers and extract the
derived constants, mutating the globals and the address and size out
parameters in source order. The header offsets follow the 32-bit PE
layout: e_magic at 0, e_lfanew at 60, NT signature at e_lfanew,
SizeOfOptionalHeader at e_lfanew + 20, ImageBase at e_lfanew + 52,
DllCharacteristics at e_lfanew + 94, first section at e_lfanew + 24 +
SizeOfOptionalHeader with VirtualSize, VirtualAddress and
PointerToRawData at section offsets 8, 12 and 20. The ASLR rewrite of
the success path only clears a header bit inside the buffer; the model
records the flag. The out parameters hold addr0 and size0 on entry. -/
def LoadBinaryImage (content : List Nat) (memBase : Nat) (g : PEGlobals)
    (addr0 size0 : Nat) : LoadResult :=
  if content.length = 0 then
    { res := some PEError.emptyContent, globals := g, address := addr0, size := size0 }
  else
    let g1 := { g with imagebaseMemory := memBase }
    if memBase = 0 then
      { res := some PEError.nullBaseAddress, globals := g1, address := addr0, size := size0 }
    else if rd16 content 0 ≠ 23117 then
      { res := some PEError.invalidDOSHeader, globals := g1, address := addr0, size := size0 }
    else
      let e_lfanew := rd32 content 60
      if rd32 content e_lfanew ≠ 17744 then
        { res := some PEError.invalidPEHeader, globals := g1, address := addr0, size := size0 }
      else if rd32 content (e_lfanew + 52) = 0 then
        { res := some PEError.nullImageBase, globals := g1, address := addr0, size := size0 }
      else
        let g2 := { g1 with imagebaseRaw := rd32 content (e_lfanew + 52) }
        let sect := e_lfanew + 24 + rd16 content (e_lfanew + 20)
        if uadd memBase sect = 0 then
          { res := some PEError.emptyNtHeader, globals := g2, address := addr0, size := size0 }
        else if rd32 content (sect + 20) = 0 then
          { res := some PEError.nullRawPointer, globals := g2, address := addr0, size := size0 }
        else
          let g3 := { g2 with rawDataPointer := rd32 content (sect + 20) }
          let addr1 := uadd memBase (rd32 content (sect + 20))
          let size1 := rd32 content (sect + 8)
          if size1 = 0 then
            { res := some PEError.nullVirtualSize, globals := g3, address := addr1, size := size1 }
          else
            let g4 := { g3 with
              virtualAddress := rd32 content (sect + 12)
              codeBase := uadd (rd32 content (e_lfanew + 52)) (rd32 content (sect + 12))
              aslrEnabled := ((rd16 content (e_lfanew + 94)) &&& 64) != 0 }
            { res := none, globals := g4, address := addr1, size := size1 }

/-- C9 (amended): given a non-null buffer address, the load either
succeeds or fails with exactly one of the seven specified kinds (the
eighth internal kind guarding a null buffer is unreachable then). -/
theorem loadBinaryImage_error_kinds (content : List Nat) (memBase : Nat)
    (g : PEGlobals) (a0 s0 : Nat) (h : memBase ≠ 0) :
    (LoadBinaryImage content memBase g a0 s0).res = none ∨
    ∃ e ∈ [PEError.emptyContent, PEError.invalidDOSHeader, PEError.invalidPEHeader,
           PEError.nullImageBase, PEError.emptyNtHeader, PEError.nullRawPointer,
           PEError.nullVirtualSize],
      (LoadBinaryImage content memBase g a0 s0).res = some e := by
  by_cases h1 : content.length = 0
  · right
    refine ⟨PEError.emptyContent, by simp, ?_⟩
    simp [LoadBinaryImage, h1]
  · by_cases h2 : rd16 content 0 ≠ 23117
    · right
      refine ⟨PEError.invalidDOSHeader, by simp, ?_⟩
      simp [LoadBinaryImage, h1, h2, h]
    · by_cases h3 : rd32 content (rd32 content 60) ≠ 17744
      · right
        refine ⟨PEError.invalidPEHeader, by simp, ?_⟩
        simp [LoadBinaryImage, h1, h2, h3, h]
      · by_cases h4 : rd32 content (rd32 content 60 + 52) = 0
        · right
          refine ⟨PEError.nullImageBase, by simp, ?_⟩
          simp [LoadBinaryImage, h1, h2, h3, h4, h]
        · by_cases h5 : uadd memBase (rd32 content 60 + 24 + rd16 content (rd32 content 60 + 20)) = 0
          · right
            refine ⟨PEError.emptyNtHeader, by simp, ?_⟩
            simp [LoadBinaryImage, h1, h2, h3, h4, h5, h]
          · by_cases h6 : rd32 content (rd32 content 60 + 24 + rd16 content (rd32 content 60 + 20) + 20) = 0
            · right
              refine ⟨PEError.nullRawPointer, by simp, ?_⟩
              simp [LoadBinaryImage, h1, h2, h3, h4, h5, h6, h]
            · by_cases h7 : rd32 content (rd32 content 60 + 24 + rd16 content (rd32 content 60 + 20) + 8) = 0
              · right
                refine ⟨PEError.nullVirtualSize, by simp, ?_⟩
                simp [LoadBinaryImage, h1, h2, h3, h4, h5, h6, h7, h]
              · left
                simp [LoadBinaryImage, h1, h2, h3, h4, h5, h6, h7, h]

/-- Witness: the amended C9 theorem applied to the empty buffer at a
non-null address. -/
theorem loadBinaryImage_error_kinds_witness :
    (1 : Nat) ≠ 0 ∧
    ((LoadBinaryImage [] 1 PEGlobals.init 0 0).res = none ∨
     ∃ e ∈ [PEError.emptyContent, PEError.invalidDOSHeader, PEError.invalidPEHeader,
            PEError.nullImageBase, PEError.emptyNtHeader, PEError.nullRawPointer,
            PEError.nullVirtualSize],
       (LoadBinaryImage [] 1 PEGlobals.init 0 0).res = some e) :=
  ⟨by decide, loadBinaryImage_error_kinds [] 1 PEGlobals.init 0 0 (by decide)⟩

/-- A 200 byte file with valid DOS magic, e_lfanew 64, valid PE magic,
ImageBase 1, SizeOfOptionalHeader 0, PointerToRawData 4 and VirtualSize
0: the load must fail with the zero virtual size kind. -/
def vsizeZeroPE : List Nat :=
  ((((((List.replicate 200 0).set 0 77).set 1 90).set 60 64).set 64 80).set 65 69).set 116 1
    |>.set 108 4

set_option maxRecDepth 40000

/-- C9 (counterexample): on a file failing only the virtual size check,
the load returns the ZeroVirtualSize error but has already assigned the
memory base, the declared image base and the raw data pointer globals as
well as both caller out parameters, so a failing load does produce
partial results, contrary to the claim. -/
theorem load_partial_write_counterexample :
    (LoadBinaryImage vsizeZeroPE 4194304 PEGlobals.init 9 7).res =
      some PEError.nullVirtualSize ∧
    (LoadBinaryImage vsizeZeroPE 4194304 PEGlobals.init 9 7).globals.imagebaseMemory = 4194304 ∧
    (LoadBinaryImage vsizeZeroPE 4194304 PEGlobals.init 9 7).globals.imagebaseRaw = 1 ∧
    (LoadBinaryImage vsizeZeroPE 4194304 PEGlobals.init 9 7).globals.rawDataPointer = 4 ∧
    (LoadBinaryImage vsizeZeroPE 4194304 PEGlobals.init 9 7).address = 4194308 ∧
    (LoadBinaryImage vsizeZeroPE 4194304 PEGlobals.init 9 7).size = 0 ∧
    PEGlobals.init.imagebaseMemory = 0 ∧ PEGlobals.init.imagebaseRaw = 0 ∧
    PEGlobals.init.rawDataPointer = 0 := by
  refine ⟨by decide, by decide, by decide, by decide, by decide, by decide, rfl, rfl, rfl⟩

/-- One PE section header as used by the patcher RvaToOffset loop. -/
structure PESection where
  virtualAddress : Nat
  virtualSize : Nat
  pointerToRawData : Nat
deriving DecidableEq

/-- Patcher RvaToOffset (noceg_patcher main.cpp lines 118 to 134): the
first section containing the RVA maps it to a file offset, otherwise 0. -/
def RvaToOffset (sections : List PESection) (rva : Nat) : Nat :=
  match sections with
  | [] => 0
  | s :: rest =>
    if s.virtualAddress ≤ rva ∧ rva < s.virtualAddress + s.virtualSize then
      rva - s.virtualAddress + s.pointerToRawData
    else RvaToOffset rest rva

/-- Patch record of the patcher (main.cpp lines 35 to 45) with m_Prologue
and m_Value already converted from their hex strings by StringToNumber
(which returns 0 on a malformed string). -/
structure PatchInfo where
  m_Prologue : Nat
  m_Type : Int
  m_Value : Nat
deriving DecidableEq

/-- The per-entry guard of ApplyPatches (main.cpp lines 372 to 380): skip
when the prologue VA is below the image base, and skip when the resolved
file offset is 0 or at least the file size minus 5. Under the size bound
of IsValidPe the size_t subtraction never underflows, matching the plain
natural subtraction here. -/
def patchOffset (fileLen imageBase : Nat) (sections : List PESection)
    (info : PatchInfo) : Option Nat :=
  if info.m_Prologue < imageBase then none
  else
    let offset := RvaToOffset sections (u32 (info.m_Prologue - imageBase))
    if offset = 0 ∨ offset ≥ fileLen - 5 then none
    else some offset

/-- Little endian byte k of a 32-bit value. -/
def leByte (v k : Nat) : Nat := v / 256 ^ k % 256

/-- The bytes the switch of ApplyPatches (main.cpp lines 384 to 421)
writes at the resolved offset for each patch type: type 0 writes mov al,
1 then ret; types 1 to 3 write mov eax, value then ret; type 4 writes a
near jump whose displacement is value minus prologue plus 5 in 32-bit
arithmetic; other types write nothing. -/
def patchBytes (info : PatchInfo) (offset : Nat) : List (Nat × Nat) :=
  if info.m_Type = 0 then
    [(offset, 176), (offset + 1, 1), (offset + 2, 195)]
  else if info.m_Type = 1 ∨ info.m_Type = 2 ∨ info.m_Type = 3 then
    [(offset, 184),
     (offset + 1, leByte (u32 info.m_Value) 0), (offset + 2, leByte (u32 info.m_Value) 1),
     (offset + 3, leByte (u32 info.m_Value) 2), (offset + 4, leByte (u32 info.m_Value) 3),
     (offset + 5, 195)]
  else if info.m_Type = 4 then
    [(offset, 233),
     (offset + 1, leByte (usub info.m_Value (info.m_Prologue + 5)) 0),
     (offset + 2, leByte (usub info.m_Value (info.m_Prologue + 5)) 1),
     (offset + 3, leByte (usub info.m_Value (info.m_Prologue + 5)) 2),
     (offset + 4, leByte (usub info.m_Value (info.m_Prologue + 5)) 3)]
  else []

/-- Sequential writes into the file buffer. -/
def writeBytes (file : List Nat) (writes : List (Nat × Nat)) : List Nat :=
  writes.foldl (fun f w => f.set w.1 w.2) file

/-- One iteration of the ApplyPatches loop: resolve and guard the offset,
then perform the writes of the switch; the flag reports whether the
applied counter was incremented. -/
def ApplyPatchesOne (file : List Nat) (imageBase : Nat) (sections : List PESection)
    (info : PatchInfo) : List Nat × Bool :=
  match patchOffset file.length imageBase sections info with
  | none => (file, false)
  | some offset =>
    (writeBytes file (patchBytes info offset), !(patchBytes info offset).isEmpty)

/-- ApplyPatches (main.cpp lines 363 to 435): apply every patch in order
and count the applied ones. -/
def ApplyPatches (file : List Nat) (imageBase : Nat) (sections : List PESection) :
    List PatchInfo → List Nat × Nat
  | [] => (file, 0)
  | info :: rest =>
    let one := ApplyPatchesOne file imageBase sections info
    let restRes := ApplyPatches one.1 imageBase sections rest
    (restRes.1, (if one.2 then 1 else 0) + restRes.2)

theorem writeBytes_length (writes : List (Nat × Nat)) (file : List Nat) :
    (writeBytes file writes).length = file.length := by
  induction writes generalizing file with
  | nil => rfl
  | cons w rest ih =>
    unfold writeBytes
    rw [List.foldl_cons]
    have := ih (file.set w.1 w.2)
    unfold writeBytes at this
    rw [this, List.length_set]

theorem applyPatchesOne_length (file : List Nat) (imageBase : Nat)
    (sections : List PESection) (info : PatchInfo) :
    (ApplyPatchesOne file imageBase sections info).1.length = file.length := by
  unfold ApplyPatchesOne
  cases patchOffset file.length imageBase sections info with
  | none => rfl
  | some offset => exact writeBytes_length _ _

theorem patchBytes_indices (info : PatchInfo) (offset : Nat) :
    ∀ w ∈ patchBytes info offset, w.1 ≤ offset + 5 := by
  intro w hw
  unfold patchBytes at hw
  split_ifs at hw <;> simp only [List.mem_cons, List.not_mem_nil, or_false] at hw <;>
    first
      | (rcases hw with rfl | rfl | rfl <;> omega)
      | (rcases hw with rfl | rfl | rfl | rfl | rfl | rfl <;> omega)

/-- C10: for a file that passed PE validation (so its length is at least
the 64 byte DOS header), every patch the patcher applies stays inside the
file buffer: the guarded offset satisfies 1 ≤ offset and offset + 5 <
file length, every byte written by any patch type lands at an index
below the file length, and applying any patch list never changes the
file length, so ApplyPatches never indexes past the end of the file
data. -/
theorem applyPatches_in_bounds (file : List Nat) (imageBase : Nat)
    (sections : List PESection) (info : PatchInfo) (patches : List PatchInfo)
    (hlen : 64 ≤ file.length) :
    (∀ off, patchOffset file.length imageBase sections info = some off →
      1 ≤ off ∧ off + 5 < file.length ∧
      ∀ w ∈ patchBytes info off, w.1 < file.length) ∧
    (ApplyPatches file imageBase sections patches).1.length = file.length := by
  constructor
  · intro off hoff
    unfold patchOffset at hoff
    split_ifs at hoff with h1
    have h2 : ¬(RvaToOffset sections (u32 (info.m_Prologue - imageBase)) = 0 ∨
        RvaToOffset sections (u32 (info.m_Prologue - imageBase)) ≥ file.length - 5) := by
      by_contra hcon
      rw [if_pos hcon] at hoff
      exact Option.noConfusion hoff
    rw [if_neg h2] at hoff
    push_neg at h2
    cases hoff
    refine ⟨by omega, by omega, ?_⟩
    intro w hw
    have := patchBytes_indices info _ w hw
    omega
  · induction patches generalizing file with
    | nil => rfl
    | cons p rest ih =>
      unfold ApplyPatches
      simp only
      rw [ih _ (by rw [applyPatchesOne_length]; exact hlen)]
      exact applyPatchesOne_length file imageBase sections p

/-- Sample ingredients for the C10 witness. -/
def samplePatch : PatchInfo := { m_Prologue := 4198500, m_Type := 1, m_Value := 3735928559 }

/-- Single code section used by the C10 witness. -/
def sampleSection : PESection :=
  { virtualAddress := 4096, virtualSize := 4096, pointerToRawData := 1024 }

/-- File buffer used by the C10 witness. -/
def sampleFile : List Nat := List.replicate 1200 0

/-- Witness: the C10 theorem applied to a 1200 byte file, one code
section and a type 1 patch whose offset resolves to 1124. -/
theorem applyPatches_in_bounds_witness :
    64 ≤ sampleFile.length ∧
    patchOffset sampleFile.length 4194304 [sampleSection] samplePatch = some 1124 ∧
    ((∀ off, patchOffset sampleFile.length 4194304 [sampleSection] samplePatch = some off →
      1 ≤ off ∧ off + 5 < sampleFile.length ∧
      ∀ w ∈ patchBytes samplePatch off, w.1 < sampleFile.length) ∧
    (ApplyPatches sampleFile 4194304 [sampleSection] [samplePatch]).1.length =
      sampleFile.length) :=
  ⟨by simp [sampleFile], by decide,
   applyPatches_in_bounds sampleFile 4194304 [sampleSection] samplePatch [samplePatch]
     (by simp [sampleFile])⟩
